import Mathlib

/-!
Verification of the recipe knowledge base (builder/repository pair).

The definitions below are a shallow embedding of the Python source:

* `src/src/database/repository.py` — the query engine (`RecipeDB`):
  `find_recipes_by_id`, `find_recipes_by_name`, `find_craftable_recipes`,
  `find_recipes`, `count_recipes`.
* `src/src/database/builder.py` — ingestion (`create_database`,
  `get_clean_name`, `get_all_ingredient_ids`).

Strings are Lean `String`s; all character-level operations (Python `in`,
`str.split`, `str.startswith`, `str.title`, SQL `LIKE`, `json.dumps`) are
defined explicitly over `List Char` so that every definition evaluates by
kernel reduction.  A SQLite row is a `RecipeRecord`; the `recipes` table is
a `List RecipeRecord` in insertion order (SQL scans iterate in rowid
order).  The nullable `ingredients_json` / `pattern_json` TEXT columns are
`Option (List String)` holding the decoded JSON value; `json.dumps` of a
list of strings is injective and `== '[]'` exactly when the list is empty,
so SQL text comparisons on those columns are embedded as comparisons on
the decoded lists, except for the `LIKE` test of `find_recipes`, which
really does pattern-match the serialized text and is embedded against
`jsonDumpsChars`.
-/

/-! ### Character and string helpers -/

/-- ASCII lower-casing of a single character, the case folding SQLite's
`LIKE` applies (`LIKE` is case-insensitive for ASCII only). -/
def asciiLower (c : Char) : Char :=
  if 65 ≤ c.toNat ∧ c.toNat ≤ 90 then Char.ofNat (c.toNat + 32) else c

/-- ASCII upper-casing of a single character (used by Python `str.title`). -/
def asciiUpper (c : Char) : Char :=
  if 97 ≤ c.toNat ∧ c.toNat ≤ 122 then Char.ofNat (c.toNat - 32) else c

/-- ASCII letter test (the cased characters of the identifiers handled by
`str.title` in `get_clean_name`). -/
def isAsciiAlpha (c : Char) : Bool :=
  (65 ≤ c.toNat && c.toNat ≤ 90) || (97 ≤ c.toNat && c.toNat ≤ 122)

/-- Code-point lexicographic `≤` on character lists: the order Python's
`sorted` uses on strings. -/
def charsLe : List Char → List Char → Bool
  | [], _ => true
  | _ :: _, [] => false
  | a :: as, b :: bs =>
      if a.toNat < b.toNat then true
      else if b.toNat < a.toNat then false
      else charsLe as bs

/-- Python string `≤` (code-point lexicographic). -/
def strLeB (a b : String) : Bool := charsLe a.toList b.toList

/-- Insert into a `strLeB`-sorted list, keeping it sorted. -/
def insertSorted (x : String) : List String → List String
  | [] => [x]
  | y :: ys => if strLeB x y then x :: y :: ys else y :: insertSorted x ys

/-- Embedding of Python `sorted` on a list of strings (insertion sort;
`sorted` is a permutation sorted under `strLeB`, which is all the source
relies on). -/
def sortStrings : List String → List String
  | [] => []
  | x :: xs => insertSorted x (sortStrings xs)

/-- `needle` occurs as a contiguous substring of `hay`: the embedding of
Python's `needle in hay` on strings. -/
def charsContain (needle : List Char) : List Char → Bool
  | [] => needle.isEmpty
  | c :: rest => needle.isPrefixOf (c :: rest) || charsContain needle rest

/-- Python `needle in hay` for strings. -/
def substrOf (needle hay : String) : Bool := charsContain needle.toList hay.toList

/-- Python `s.startswith(p)`. -/
def strStartsWith (p s : String) : Bool := p.toList.isPrefixOf s.toList

/-- `ing.startswith('#')` — the tag-reference marker test of
`find_craftable_recipes`. -/
def startsWithHash (s : String) : Bool := strStartsWith "#" s

/-- The characters after the last `':'` of the list (all of it when no
`':'` occurs): the embedding of Python `s.split(':')[-1]`. -/
def afterLastColon (l : List Char) : List Char :=
  (l.reverse.takeWhile (fun c => !(c == ':'))).reverse

/-- `ing.split(':')[-1]` — the "local name" of a (possibly tag) identifier. -/
def tagLocalName (s : String) : String := String.mk (afterLastColon s.toList)

/-- Python `str.title` over a character list; the flag records whether the
previous character was a cased (ASCII) letter, i.e. whether we are inside
a word. -/
def titleChars : List Char → Bool → List Char
  | [], _ => []
  | c :: rest, insideWord =>
      (if isAsciiAlpha c then (if insideWord then asciiLower c else asciiUpper c) else c)
        :: titleChars rest (isAsciiAlpha c)

/-- `builder.get_clean_name`:
`item_id.split(':')[-1].replace('_', ' ').title()`. -/
def get_clean_name (item_id : String) : String :=
  String.mk
    (titleChars ((afterLastColon item_id.toList).map (fun c => if c == '_' then ' ' else c)) false)

/-- All suffixes of a character list, longest first (including the list
itself and the empty suffix): the candidate remainders a `%` wildcard can
leave behind. -/
def likeSuffixes : List Char → List (List Char)
  | [] => [[]]
  | c :: rest => (c :: rest) :: likeSuffixes rest

/-- SQL `LIKE` matching (SQLite defaults: `%` matches any sequence, `_`
matches one character, ASCII-case-insensitive), pattern against source.
`%` consumes an arbitrary prefix of the source, i.e. the rest of the
pattern must match some suffix. -/
def likeChars : List Char → List Char → Bool
  | [], s => s.isEmpty
  | '%' :: ps, s => (likeSuffixes s).any (fun t => likeChars ps t)
  | '_' :: ps, s =>
      match s with
      | [] => false
      | _ :: s2 => likeChars ps s2
  | p :: ps, s =>
      match s with
      | [] => false
      | c :: s2 => (asciiLower p == asciiLower c) && likeChars ps s2

/-- SQL `column LIKE '%needle%'` — used by `find_recipes_by_name` and the
name criterion of `find_recipes`. -/
def likeContains (needle hay : String) : Bool :=
  likeChars ('%' :: needle.toList ++ ['%']) hay.toList

/-- `json.dumps` escaping of one character inside a JSON string (quote and
backslash; control-character escapes are irrelevant to the identifiers at
hand and not modelled). -/
def jsonEscapeChar (c : Char) : List Char :=
  if c == '"' then ['\\', '"'] else if c == '\\' then ['\\', '\\'] else [c]

/-- The characters of the JSON serialization of one string. -/
def jsonStringChars (s : String) : List Char :=
  '"' :: s.toList.flatMap jsonEscapeChar ++ ['"']

/-- The characters of `json.dumps(l)` for a list of strings with Python's
default separators (`'[', ', ', ']'`): the exact text stored in the
`ingredients_json` column. -/
def jsonDumpsChars : List String → List Char
  | [] => ['[', ']']
  | x :: xs =>
      '[' :: (jsonStringChars x ++ xs.flatMap (fun s => ',' :: ' ' :: jsonStringChars s) ++ [']'])

/-! ### Data model -/

/-- One row of the `recipes` table created by `builder.create_database`.
`ingredients` / `pattern` hold the decoded values of the nullable
`ingredients_json` / `pattern_json` TEXT columns (`none` = SQL NULL). -/
structure RecipeRecord where
  id : Nat
  result_id : String
  result_name : String
  result_count : Nat
  recipe_type : String
  ingredients : Option (List String)
  pattern : Option (List String)
deriving DecidableEq

/-! ### Query engine (`repository.RecipeDB`) -/

/-- The caller-input normalization of `RecipeDB.find_recipes_by_id`:
prepend the default `minecraft:` namespace when missing. -/
def normalizeItemId (item_id : String) : String :=
  if strStartsWith "minecraft:" item_id then item_id else "minecraft:" ++ item_id

/-- `RecipeDB.find_recipes_by_id`: prepend the `minecraft:` namespace when
missing, then scan for exact `result_id` equality. -/
def find_recipes_by_id (store : List RecipeRecord) (item_id : String) : List RecipeRecord :=
  store.filter (fun r => r.result_id == normalizeItemId item_id)

/-- `RecipeDB.find_recipes_by_name`: `result_name LIKE '%name%'`. -/
def find_recipes_by_name (store : List RecipeRecord) (name : String) : List RecipeRecord :=
  store.filter (fun r => likeContains name r.result_name)

/-- `RecipeDB.count_recipes`: `SELECT COUNT(*) FROM recipes`. -/
def count_recipes (store : List RecipeRecord) : Nat := store.length

/-- `Counter(l1) == Counter(l2)`: a `Counter` built from a list maps each
element to its positive multiplicity, so dict equality is multiplicity
equality over every key occurring in either list. -/
def counterEq (l1 l2 : List String) : Bool :=
  ((l1 ++ l2).dedup).all (fun x => List.count x l1 == List.count x l2)

/-- The tag branch of `find_craftable_recipes`:
`sum(available_counts[item] for item in available_counts if tag_name in item)` —
the counter's keys are the distinct inventory items, each mapped to its
multiplicity. -/
def tagAvailableCount (available : List String) (tag_name : String) : Nat :=
  ((available.dedup.filter (fun item => substrOf tag_name item)).map
      (fun item => List.count item available)).sum

/-- One iteration of the per-ingredient loop of `find_craftable_recipes`
(non-exact branch): `ing` together with its required multiplicity
`recipe_counts[ing]` is satisfied by the inventory.  The loop sets
`can_craft = False` when `available_tag_items_count < count` (tag case) or
`available_counts[ing] < count` (concrete case). -/
def canCraftEntry (available l : List String) (ing : String) : Bool :=
  let count := List.count ing l
  if startsWithHash ing then
    decide (count ≤ tagAvailableCount available (tagLocalName ing))
  else
    decide (count ≤ List.count ing available)

/-- The per-recipe test of `find_craftable_recipes`: exact mode compares
the two counters for equality; subset mode runs the short-circuiting
per-distinct-ingredient loop (`Counter.items()` iterates the distinct
elements of the recipe's list). -/
def recipeQualifies (available l : List String) (exact : Bool) : Bool :=
  if exact then counterEq l available
  else (l.dedup).all (canCraftEntry available l)

/-- The SQL pre-filter of `find_craftable_recipes`:
`ingredients_json IS NOT NULL AND ingredients_json != '[]'` (the stored
text is `json.dumps` of a list, which equals `'[]'` exactly for the empty
list). -/
def nonEmptyIngredients (r : RecipeRecord) : Bool :=
  match r.ingredients with
  | some l => !l.isEmpty
  | none => false

/-- `RecipeDB.find_craftable_recipes`: SQL pre-filter, then the Python
loop that re-checks non-emptiness and appends each qualifying row. -/
def find_craftable_recipes (store : List RecipeRecord) (available : List String)
    (exact : Bool) : List RecipeRecord :=
  (store.filter nonEmptyIngredients).filter (fun r =>
    match r.ingredients with
    | some l => if l.isEmpty then false else recipeQualifies available l exact
    | none => false)

/-- The name criterion of `RecipeDB.find_recipes`: only added when `name`
is truthy (Python `if name:`), and then `result_name LIKE '%name%'`. -/
def nameFilter : Option String → RecipeRecord → Bool
  | none, _ => true
  | some n, r => if n == "" then true else likeContains n r.result_name

/-- The `LIKE` pattern `'%"{ingredient}"%'` built for each requested
ingredient by `RecipeDB.find_recipes` (the ingredient text is inserted
verbatim, so `%`/`_` inside it act as wildcards). -/
def ingredientLikePattern (ing : String) : List Char :=
  '%' :: '"' :: ing.toList ++ ['"', '%']

/-- The ingredient criteria of `RecipeDB.find_recipes`: only added when the
list is truthy (non-`None` and non-empty); one conjunct
`ingredients_json LIKE '%"{ingredient}"%'` per requested ingredient,
matched against the serialized column text (NULL fails every `LIKE`). -/
def ingredientsFilter : Option (List String) → RecipeRecord → Bool
  | none, _ => true
  | some [], _ => true
  | some ings, r =>
      match r.ingredients with
      | none => false
      | some l => ings.all (fun ing => likeChars (ingredientLikePattern ing) (jsonDumpsChars l))

/-- The kind criterion of `RecipeDB.find_recipes`: only added when
`recipe_type` is truthy, and then exact (case-sensitive) SQL equality. -/
def typeFilter : Option String → RecipeRecord → Bool
  | none, _ => true
  | some t, r => if t == "" then true else r.recipe_type == t

/-- `RecipeDB.find_recipes(name, ingredients, recipe_type, limit)`: the
conjunctive `WHERE 1=1 AND ...` scan capped by `LIMIT ?`.  The Python
signature defaults `limit` to 20. -/
def find_recipes (store : List RecipeRecord) (name : Option String)
    (ingredients : Option (List String)) (recipe_type : Option String)
    (limit : Nat := 20) : List RecipeRecord :=
  (store.filter (fun r =>
      nameFilter name r && ingredientsFilter ingredients r && typeFilter recipe_type r)).take limit

/-! ### Normalizer and ingestion (`builder.py`) -/

/-- A Python ingredient value as found under the legacy ingredient keys:
a bare id string, a dict carrying `item`/`tag` fields, a list of
alternatives, or any other JSON value (`other`, which contributes no
ids). -/
inductive Ingredient where
  | str (s : String)
  | dict (item tag : Option String)
  | list (choices : List Ingredient)
  | other

/-- Python truthiness of an optional string (`None` and `""` are falsy). -/
def truthy : Option String → Bool
  | none => false
  | some s => !(s == "")

/-- Python `a or b` on optional strings. -/
def pyOr (a b : Option String) : Option String := if truthy a then a else b

/-- `builder.get_all_ingredient_ids`: for a list of choices, only the
first alternative represents the slot; a dict yields
`ingredient.get('item') or ingredient.get('tag')` when truthy; a bare
string is appended unconditionally. -/
def get_all_ingredient_ids : Ingredient → List String
  | .str s => [s]
  | .dict item tag =>
      match pyOr item tag with
      | some s => if s == "" then [] else [s]
      | none => []
  | .list [] => []
  | .list (first :: _) => get_all_ingredient_ids first
  | .other => []

/-- The `result` field of a raw recipe description: a dict with `id` /
`item` / `count`, a bare string, or any other JSON value (which matches
neither `isinstance` test). -/
inductive ResultVal where
  | dict (id item : Option String) (count : Option Nat)
  | str (s : String)
  | other

/-- One decoded recipe description (`data = json.load(f)`): the fields the
builder reads, each `none` when the key is absent. -/
structure RecipeData where
  type : Option String
  result : Option ResultVal
  ingredients : Option Ingredient
  ingredient : Option Ingredient
  key : Option (List (Char × Ingredient))
  pattern : Option (List String)
  base : Option Ingredient
  addition : Option Ingredient
  input : Option Ingredient
  material : Option Ingredient

/-- `data.get("type", "unknown")`. -/
def recipeTypeOf (d : RecipeData) : String := d.type.getD "unknown"

/-- The dynamic-result kinds of the builder's `elif`:
`recipe_type in ["minecraft:smithing_trim", "minecraft:crafting_decorated_pot"]`. -/
def dynamicResultKinds : List String :=
  ["minecraft:smithing_trim", "minecraft:crafting_decorated_pot"]

/-- The `if isinstance(...)/elif/elif` chain resolving
`(result_id, result_count)` from the `result` field (initial state
`(None, 1)`). -/
def resolveResult (stem : String) (d : RecipeData) : Option String × Nat :=
  match d.result with
  | some (.dict id item count) => (pyOr id item, count.getD 1)
  | some (.str s) => (some s, 1)
  | _ =>
      if recipeTypeOf d ∈ dynamicResultKinds then
        (some ("minecraft:special_" ++ stem), 1)
      else (none, 1)

/-- The follow-up
`if not result_id and recipe_type.startswith("minecraft:crafting_special_")`
synthesis applied after `resolveResult`. -/
def finalResult (stem : String) (d : RecipeData) : Option String × Nat :=
  let rid := (resolveResult stem d).1
  if !truthy rid && strStartsWith "minecraft:crafting_special_" (recipeTypeOf d) then
    (some ("minecraft:special_" ++ stem), 1)
  else (rid, (resolveResult stem d).2)

/-- Ids contributed by one optional ingredient field (`if key in data:` —
absent keys contribute nothing). -/
def ingFrom : Option Ingredient → List String
  | some ing => get_all_ingredient_ids ing
  | none => []

/-- The contribution of one grid cell holding character `c`: the loop body
`if char != " " and char in data["key"]:
ingredients_flat.extend(get_all_ingredient_ids(data["key"][char]))`. -/
def cellIds (key : List (Char × Ingredient)) (c : Char) : List String :=
  if c == ' ' then []
  else
    match List.lookup c key with
    | some ing => get_all_ingredient_ids ing
    | none => []

/-- The shaped-recipe walk: for every row of the pattern and every
character of the row, a non-blank character present in the symbol dict
contributes the ids of its bound ingredient. -/
def shapedIngredients (key : List (Char × Ingredient)) (rows : List String) : List String :=
  rows.flatMap (fun row => row.toList.flatMap (cellIds key))

/-- `ingredients_flat` as accumulated by the builder, in source order:
`ingredients`, `ingredient`, the `key`/`pattern` walk (only when both
keys are present), then `base`, `addition`, `input`, `material`. -/
def collectIngredients (d : RecipeData) : List String :=
  ingFrom d.ingredients ++ ingFrom d.ingredient ++
    (match d.key with
     | some k =>
         (match d.pattern with
          | some rows => shapedIngredients k rows
          | none => [])
     | none => []) ++
    ingFrom d.base ++ ingFrom d.addition ++ ingFrom d.input ++ ingFrom d.material

/-- Outcome of normalizing one well-typed description: an inserted row
(sans rowid, assigned on insert) or a structured skip reason, exactly the
two continue-paths of the loop body. -/
inductive UnitOutcome where
  | record (r : RecipeRecord)
  | skip (reason : String)
deriving DecidableEq

/-- The loop body of `create_database` for one decoded unit (`stem` is
`file_path.stem`; skip reasons use `file_path.name = stem + ".json"`):
result resolution, ingredient collection, the two skip checks, and the
row built for `INSERT` (with `json.dumps(sorted(ingredients_flat))` and
`pattern_json = json.dumps(pattern) if pattern else None`). -/
def normalizeUnit (stem : String) (d : RecipeData) : UnitOutcome :=
  let rt := recipeTypeOf d
  let rid? := (finalResult stem d).1
  if !truthy rid? then .skip (stem ++ ".json: No result_id found.")
  else
    let rid := rid?.getD ""
    let flat := collectIngredients d
    if flat.isEmpty && !strStartsWith "minecraft:crafting_special_" rt &&
        !(rt == "minecraft:crafting_decorated_pot") then
      .skip (stem ++ ".json: No ingredients found.")
    else
      .record
        { id := 0
          result_id := rid
          result_name := get_clean_name rid
          result_count := (finalResult stem d).2
          recipe_type := rt
          ingredients := some (sortStrings flat)
          pattern := match d.pattern with | some [] => none | p => p }

/-- One source unit of an ingestion batch: either `json.load` succeeds and
yields a dict-shaped description, or the unit is malformed (invalid JSON,
or a non-dict top level) and `json.load` / `data.get` raises an exception
that `except (KeyError, TypeError)` does not catch. -/
inductive RawUnit where
  | parsed (d : RecipeData)
  | malformed

/-- The accumulator of `create_database`: rows inserted so far (in rowid
order, rowids assigned 1, 2, … on the freshly created table),
`processed_files`, and `skipped_files`. -/
structure IngestState where
  records : List RecipeRecord
  processed : Nat
  skipped : List String
deriving DecidableEq

/-- The `for file_path in recipes_path.glob("*.json")` loop.  A malformed
unit raises out of the loop (its `json.load` sits outside the
`try`), abandoning the uncommitted transaction; the error value records
the aborting unit. -/
def ingestLoop : List (String × RawUnit) → IngestState → Except String IngestState
  | [], st => .ok st
  | (stem, .malformed) :: _, _ => .error ("JSONDecodeError: " ++ stem ++ ".json")
  | (stem, .parsed d) :: rest, st =>
      match normalizeUnit stem d with
      | .skip reason => ingestLoop rest { st with skipped := st.skipped ++ [reason] }
      | .record r =>
          ingestLoop rest
            { records := st.records ++ [{ r with id := st.records.length + 1 }]
              processed := st.processed + 1
              skipped := st.skipped }

/-- `builder.create_database` over a batch of source units: drop and
recreate the table (start from the empty state) and run the loop.  The
result is the state committed by the final `con.commit()`, or the
exception that aborted the run before the commit. -/
def create_database (units : List (String × RawUnit)) : Except String IngestState :=
  ingestLoop units ⟨[], 0, []⟩

/-- The persisted contents after an ingestion run over a store previously
holding `old`.  Python's `sqlite3` opens its implicit transaction only
before DML statements: on the fresh connection the `DROP TABLE` and
`CREATE TABLE` (and `CREATE INDEX`) autocommit immediately, while the
`INSERT`s join an implicit transaction that only the final
`con.commit()` makes durable.  A successful run therefore persists the
new record set; an exception escaping the loop skips the commit, the
pending inserts are rolled back when the connection is dropped, and what
remains is the freshly created empty table — the previous contents are
already gone by then, which is why the result never depends on them. -/
def run_ingestion (_old : List RecipeRecord) (units : List (String × RawUnit)) :
    List RecipeRecord :=
  match create_database units with
  | .ok st => st.records
  | .error _ => []

/-! ### Spec-side predicates (formalizing the claims' wording) -/

/-- Spec wording of one required-entry check of `findCraftable`
(exactMatch = false), for a distinct entry `ing` of the recipe's
ingredient frequency count: when `ing` is a tag reference (starts with
`'#'`), the sum of inventory counts over every inventory item whose
identifier contains the tag's local name (the part after the last `':'`)
as a substring is at least the required count — i.e. the number of
inventory elements whose identifier contains it; when `ing` is a concrete
id, the inventory holds at least the required count of that exact id. -/
def specEntrySatisfied (inv l : List String) (ing : String) : Prop :=
  if startsWithHash ing then
    List.count ing l ≤ inv.countP (fun item => substrOf (tagLocalName ing) item)
  else
    List.count ing l ≤ List.count ing inv

/-- Spec wording of "the grid cell holding character `c` contributes one
occurrence of ingredient id `x`": the cell is non-blank, its symbol is
bound in the dictionary, and the bound ingredient resolves to exactly the
id `x`. -/
def cellResolvesTo (key : List (Char × Ingredient)) (x : String) (c : Char) : Bool :=
  !(c == ' ') &&
    (match List.lookup c key with
     | some ing => get_all_ingredient_ids ing == [x]
     | none => false)

/-! ### Concrete fixtures -/

/-- A torch-style row: one concrete stick ingredient. -/
def stickRec : RecipeRecord :=
  ⟨2, "minecraft:torch", "Torch", 4, "minecraft:crafting_shaped", some ["minecraft:stick"], none⟩

/-- A row mixing a tag reference and a concrete id. -/
def mixRec : RecipeRecord :=
  ⟨1, "minecraft:x", "X", 1, "minecraft:crafting_shapeless",
    some ["#a", "minecraft:stick"], none⟩

/-- A row whose single ingredient id `"mk"` is LIKE-matched by the
wildcard-bearing requested ingredient `"m%k"`. -/
def weirdRec : RecipeRecord :=
  ⟨1, "minecraft:mk", "Mk", 1, "minecraft:crafting_shapeless", some ["mk"], none⟩

/-- The armor-dye description: a `minecraft:crafting_special_armordye`
unit carrying no result and no ingredient fields at all. -/
def armorDyeData : RecipeData :=
  { type := some "minecraft:crafting_special_armordye"
    result := none, ingredients := none, ingredient := none, key := none
    pattern := none, base := none, addition := none, input := none, material := none }

/-- The row `normalizeUnit` builds from `armorDyeData` (rowid not yet
assigned). -/
def armorDyeRow : RecipeRecord :=
  ⟨0, "minecraft:special_armor_dye", "Special Armor Dye", 1,
    "minecraft:crafting_special_armordye", some [], none⟩

/-- The armor-dye row as persisted by `create_database` (rowid 1). -/
def armorDyeRec : RecipeRecord :=
  ⟨1, "minecraft:special_armor_dye", "Special Armor Dye", 1,
    "minecraft:crafting_special_armordye", some [], none⟩

/-- A smithing-trim description with no `result` key. -/
def trimData : RecipeData :=
  { type := some "minecraft:smithing_trim"
    result := none, ingredients := none, ingredient := none, key := none
    pattern := none, base := none, addition := none, input := none, material := none }

/-- The chest description: shaped, pattern `["###","# #","###"]`, symbol
`'#'` bound to the tag `#minecraft:planks`. -/
def chestData : RecipeData :=
  { type := some "minecraft:crafting_shaped"
    result := some (.dict (some "minecraft:chest") none (some 1))
    ingredients := none, ingredient := none
    key := some [('#', .dict none (some "#minecraft:planks"))]
    pattern := some ["###", "# #", "###"]
    base := none, addition := none, input := none, material := none }

/-- The row `normalizeUnit` builds from `chestData`. -/
def chestRec : RecipeRecord :=
  ⟨0, "minecraft:chest", "Chest", 1, "minecraft:crafting_shaped",
    some (List.replicate 8 "#minecraft:planks"), some ["###", "# #", "###"]⟩

/-! ### Helper lemmas -/

/-- `Counter` equality is multiplicity equality at every key. -/
theorem counterEq_iff (l1 l2 : List String) :
    counterEq l1 l2 = true ↔ ∀ x : String, List.count x l1 = List.count x l2 := by
  unfold counterEq
  rw [List.all_eq_true]
  constructor
  · intro h x
    by_cases hx : x ∈ l1 ++ l2
    · exact beq_iff_eq.mp (h x (List.mem_dedup.mpr hx))
    · rw [List.mem_append] at hx
      push_neg at hx
      rw [List.count_eq_zero.mpr hx.1, List.count_eq_zero.mpr hx.2]
  · intro h x _
    exact beq_iff_eq.mpr (h x)

/-- The sum over the inventory counter's matching keys equals the number
of inventory elements whose identifier matches. -/
theorem tagAvailableCount_eq_countP (inv : List String) (t : String) :
    tagAvailableCount inv t = inv.countP (fun item => substrOf t item) := by
  unfold tagAvailableCount
  exact List.sum_map_count_dedup_filter_eq_countP (fun item => substrOf t item) inv

/-- One loop iteration of the subset branch succeeds exactly when the
spec-side per-entry condition holds. -/
theorem canCraftEntry_iff (inv l : List String) (ing : String) :
    canCraftEntry inv l ing = true ↔ specEntrySatisfied inv l ing := by
  unfold canCraftEntry specEntrySatisfied
  cases h : startsWithHash ing
  · simp only [h, if_false, Bool.false_eq_true, decide_eq_true_iff]
  · simp only [h, if_true, decide_eq_true_iff, tagAvailableCount_eq_countP]

/-- The subset branch of the per-recipe test, as a ∀ over the distinct
required entries. -/
theorem qualifies_subset_iff (inv l : List String) :
    recipeQualifies inv l false = true ↔ ∀ ing ∈ l.dedup, specEntrySatisfied inv l ing := by
  show (l.dedup).all (canCraftEntry inv l) = true ↔ _
  rw [List.all_eq_true]
  exact forall₂_congr (fun ing _ => canCraftEntry_iff inv l ing)

/-- The exact branch of the per-recipe test is multiset equality of the
recipe's ingredient list and the inventory. -/
theorem qualifies_exact_iff (inv l : List String) :
    recipeQualifies inv l true = true ↔ ∀ x : String, List.count x l = List.count x inv := by
  show counterEq l inv = true ↔ _
  exact counterEq_iff l inv

/-- Membership characterization of `find_craftable_recipes`: a row is
returned iff it is in the store, its ingredient list is present and
non-empty, and the per-recipe test succeeds. -/
theorem mem_find_craftable (store : List RecipeRecord) (inv : List String) (b : Bool)
    (r : RecipeRecord) :
    r ∈ find_craftable_recipes store inv b ↔
      r ∈ store ∧ ∃ l, r.ingredients = some l ∧ l ≠ [] ∧ recipeQualifies inv l b = true := by
  unfold find_craftable_recipes nonEmptyIngredients
  rw [List.mem_filter, List.mem_filter]
  cases h : r.ingredients with
  | none => simp [h]
  | some l =>
    cases l with
    | nil => simp [h]
    | cons a t => simp [h, and_assoc]

/-- `get_all_ingredient_ids` yields at most one id: the choice-list case
keeps only the first alternative, a dict yields at most one field, a bare
string exactly itself. -/
theorem ids_shape : ∀ ing : Ingredient,
    get_all_ingredient_ids ing = [] ∨ ∃ s, get_all_ingredient_ids ing = [s]
  | .str s => Or.inr ⟨s, rfl⟩
  | .dict item tag => by
      cases h : pyOr item tag with
      | none => exact Or.inl (by simp [get_all_ingredient_ids, h])
      | some s =>
          by_cases hs : s = ""
          · exact Or.inl (by simp [get_all_ingredient_ids, h, hs])
          · exact Or.inr ⟨s, by simp [get_all_ingredient_ids, h, hs]⟩
  | .list [] => Or.inl rfl
  | .list (first :: _) => ids_shape first
  | .other => Or.inl rfl

/-- Multiplicity contributed by one resolved ingredient: one occurrence of
`x` exactly when it resolves to `[x]`. -/
theorem count_ids (ing : Ingredient) (x : String) :
    List.count x (get_all_ingredient_ids ing)
      = if get_all_ingredient_ids ing == [x] then 1 else 0 := by
  rcases ids_shape ing with h | ⟨s, h⟩ <;> rw [h]
  · simp
  · by_cases hs : s = x
    · subst hs; simp
    · simp [List.count_cons, hs, Ne.symm hs]

/-- Multiplicity contributed by one row of grid cells: one occurrence of
`x` per cell whose symbol resolves to `x`. -/
theorem count_cellIds_row (key : List (Char × Ingredient)) (x : String) (cs : List Char) :
    List.count x (cs.flatMap (cellIds key)) = cs.countP (cellResolvesTo key x) := by
  induction cs with
  | nil => simp
  | cons c rest ih =>
      rw [List.flatMap_cons, List.count_append, List.countP_cons, ih]
      have hcell : List.count x (cellIds key c) = if cellResolvesTo key x c = true then 1 else 0 := by
        unfold cellIds cellResolvesTo
        by_cases hsp : c == ' '
        · simp [hsp]
        · cases hlk : List.lookup c key with
          | none => simp [hsp, hlk]
          | some ing => simp [hsp, hlk, count_ids]
      omega

/-- Multiplicity in the whole shaped walk: one occurrence of `x` per
resolving grid cell over all rows. -/
theorem count_shaped (key : List (Char × Ingredient)) (rows : List String) (x : String) :
    List.count x (shapedIngredients key rows)
      = ((rows.flatMap (fun row => row.toList)).countP (cellResolvesTo key x)) := by
  unfold shapedIngredients
  induction rows with
  | nil => simp
  | cons row rest ih =>
      rw [List.flatMap_cons, List.flatMap_cons, List.count_append, List.countP_append, ih,
        count_cellIds_row]

/-! ### Claim theorems -/

/-- C1: for every store and every inventory, `findCraftable` with
exactMatch = false returns a candidate record (one with a non-empty
ingredient multiset) if and only if, for every distinct entry of its
ingredient frequency count: a concrete item id must be held by the
inventory in at least the required count, and a tag reference (identifier
starting with `'#'`) must be covered, with at least the required count,
by the sum of inventory counts over every inventory item whose identifier
contains the tag's local name (the part after the last `':'`) as a
substring; the record is excluded as soon as any single entry is
unsatisfied. -/
theorem C1_subset_craftable_iff (store : List RecipeRecord) (inv : List String)
    (r : RecipeRecord) :
    r ∈ find_craftable_recipes store inv false ↔
      r ∈ store ∧ ∃ l, r.ingredients = some l ∧ l ≠ [] ∧
        ∀ ing ∈ l.dedup, specEntrySatisfied inv l ing := by
  rw [mem_find_craftable]
  constructor
  · rintro ⟨hs, l, hl, hne, hq⟩
    exact ⟨hs, l, hl, hne, (qualifies_subset_iff inv l).mp hq⟩
  · rintro ⟨hs, l, hl, hne, h⟩
    exact ⟨hs, l, hl, hne, (qualifies_subset_iff inv l).mpr h⟩

/-- C2: for every store and every inventory, `findCraftable` with
exactMatch = true returns a candidate record if and only if the frequency
count of the record's ingredient multiset equals, as a multiset, the
frequency count of the inventory: every ingredient occurs in the recipe's
list exactly as often as in the inventory, so nothing is missing and
nothing is left over. -/
theorem C2_exact_craftable_iff (store : List RecipeRecord) (inv : List String)
    (r : RecipeRecord) :
    r ∈ find_craftable_recipes store inv true ↔
      r ∈ store ∧ ∃ l, r.ingredients = some l ∧ l ≠ [] ∧
        ∀ x : String, List.count x l = List.count x inv := by
  rw [mem_find_craftable]
  constructor
  · rintro ⟨hs, l, hl, hne, hq⟩
    exact ⟨hs, l, hl, hne, (qualifies_exact_iff inv l).mp hq⟩
  · rintro ⟨hs, l, hl, hne, h⟩
    exact ⟨hs, l, hl, hne, (qualifies_exact_iff inv l).mpr h⟩

/-- C10: under exactMatch = true, tag references get no special treatment:
any record returned has every ingredient — tag references included — at
exactly the multiplicity the inventory holds for the literal string, and
consequently, for an inventory consisting solely of concrete item ids
(none starting with `'#'`), no record containing a tag reference is ever
returned in exact-match mode. -/
theorem C10_exact_no_tag_expansion (store : List RecipeRecord) (inv : List String) :
    (∀ r ∈ find_craftable_recipes store inv true, ∀ l, r.ingredients = some l →
       ∀ ing : String, List.count ing inv = List.count ing l)
  ∧ ((∀ x ∈ inv, startsWithHash x = false) →
       ∀ r ∈ find_craftable_recipes store inv true, ∀ l, r.ingredients = some l →
         ∀ ing ∈ l, startsWithHash ing = false) := by
  have key : ∀ r ∈ find_craftable_recipes store inv true, ∀ l, r.ingredients = some l →
      ∀ ing : String, List.count ing inv = List.count ing l := by
    intro r hr l hl ing
    obtain ⟨-, l', hl', -, hq⟩ := (mem_find_craftable store inv true r).mp hr
    rw [hl] at hl'
    cases hl'
    exact ((qualifies_exact_iff inv l).mp hq ing).symm
  refine ⟨key, ?_⟩
  intro hconc r hr l hl ing hing
  have h1 : 0 < List.count ing l := List.count_pos_iff.mpr hing
  have h2 : 0 < List.count ing inv := by rw [key r hr l hl ing]; exact h1
  exact hconc ing (List.count_pos_iff.mp h2)

/-- Witness for C10: an exact match through a literal tag string equates
the multiplicities, and for a concrete-only inventory a returned record's
ingredients carry no tag marker. -/
theorem C10_witness :
    List.count "#a" ["minecraft:stick", "#a"] = List.count "#a" ["#a", "minecraft:stick"]
  ∧ startsWithHash "minecraft:stick" = false :=
  ⟨(C10_exact_no_tag_expansion [mixRec] ["minecraft:stick", "#a"]).1 mixRec (by decide)
      ["#a", "minecraft:stick"] rfl "#a",
   (C10_exact_no_tag_expansion [stickRec] ["minecraft:stick"]).2 (by decide) stickRec
      (by decide) ["minecraft:stick"] rfl "minecraft:stick" (by decide)⟩

/-- C3 (code bug): the claim says a malformed (unparseable) unit is
skipped, logged and the batch continues, but `json.load` sits outside the
`try` block and `except (KeyError, TypeError)` does not catch
`json.JSONDecodeError`, so the raised exception aborts the whole batch:
with the malformed unit first, the valid armor-dye unit is never
processed, although on its own it ingests fine. -/
theorem C3_malformed_unit_aborts_batch :
    create_database [("broken", RawUnit.malformed), ("armor_dye", RawUnit.parsed armorDyeData)]
        = .error "JSONDecodeError: broken.json"
  ∧ create_database [("armor_dye", RawUnit.parsed armorDyeData)]
        = .ok ⟨[armorDyeRec], 1, []⟩ :=
  ⟨rfl, rfl⟩

/-- C4 (code bug): the claim — a failing ingestion run leaves the
previously persisted store contents completely untouched — states the
spec's error policy, but the code cannot deliver it: `DROP TABLE` and
`CREATE TABLE` autocommit outside the implicit (DML-only) `sqlite3`
transaction, so when a malformed unit aborts the batch the store that
previously held the armor-dye row is left as the freshly created empty
table instead of its old contents.  Only a successful run installs the
new record set. -/
theorem C4_failed_rebuild_destroys_store :
    create_database [("broken", RawUnit.malformed)] = .error "JSONDecodeError: broken.json"
  ∧ run_ingestion [armorDyeRec] [("broken", RawUnit.malformed)] = []
  ∧ run_ingestion [armorDyeRec] [("broken", RawUnit.malformed)] ≠ [armorDyeRec]
  ∧ run_ingestion [] [("armor_dye", RawUnit.parsed armorDyeData)] = [armorDyeRec] :=
  ⟨rfl, rfl, by decide, rfl⟩

/-- C9: running the ingestion rebuild twice from the same fixed set of
input descriptions produces an identical persisted record set — hence an
identical record count and identical per-record content (rowids included,
since each rebuild drops the table and re-assigns rowids 1, 2, … in the
same deterministic unit order). -/
theorem C9_ingestion_idempotent (old : List RecipeRecord)
    (units : List (String × RawUnit)) :
    run_ingestion (run_ingestion old units) units = run_ingestion old units
  ∧ count_recipes (run_ingestion (run_ingestion old units) units)
      = count_recipes (run_ingestion old units) := by
  have h : run_ingestion (run_ingestion old units) units = run_ingestion old units := by
    unfold run_ingestion
    cases create_database units <;> rfl
  exact ⟨h, by rw [h]⟩

/-- C5: for every shaped symbol dictionary and pattern grid, the
normalizer contributes, for each non-blank grid character present in the
dictionary, one occurrence of the ingredient bound to that symbol per
grid cell — the multiplicity of any id equals the number of grid cells
whose symbol resolves to it; in particular, for pattern
`["###","# #","###"]` with `'#'` bound to the tag `#minecraft:planks`,
the normalized chest record's ingredient multiset has exactly 8 entries
of `#minecraft:planks`. -/
theorem C5_shaped_multiplicity :
    (∀ (key : List (Char × Ingredient)) (rows : List String) (x : String),
        List.count x (shapedIngredients key rows)
          = (rows.flatMap (fun row => row.toList)).countP (cellResolvesTo key x))
  ∧ normalizeUnit "chest" chestData = .record chestRec
  ∧ chestRec.ingredients = some (List.replicate 8 "#minecraft:planks")
  ∧ List.count "#minecraft:planks" (List.replicate 8 "#minecraft:planks") = 8 :=
  ⟨count_shaped, by decide, rfl, by decide⟩

/-- C6 counterexample: a store holding an allow-listed zero-ingredient
record (armor dye, ingredient list `[]`): with an empty inventory,
`findCraftable` returns the empty list, not the zero-ingredient record
the claim demands. -/
theorem C6_counterexample :
    find_craftable_recipes [armorDyeRec] [] false = []
  ∧ find_craftable_recipes [armorDyeRec] [] false ≠ [armorDyeRec]
  ∧ armorDyeRec.ingredients = some [] :=
  ⟨by decide, by decide, rfl⟩

/-- C6 (amended): for every store, `findCraftable` with an inventory of
zero items returns no records at all — zero-ingredient records are
excluded up front by the non-empty-ingredient candidate filter, even when
allow-listed zero-ingredient records exist — and unknown filter values in
the query operations (a kind matching no record, a result id matching no
record after namespace normalization) yield zero matches rather than an
error. -/
theorem C6_empty_inventory_unknown_filters (store : List RecipeRecord) (b : Bool)
    (k i : String) (hk0 : k ≠ "")
    (hk : ∀ r ∈ store, r.recipe_type ≠ k)
    (hi : ∀ r ∈ store, r.result_id ≠ normalizeItemId i) :
    find_craftable_recipes store [] b = []
  ∧ find_recipes store none none (some k) 20 = []
  ∧ find_recipes_by_id store i = [] := by
  refine ⟨?_, ?_, ?_⟩
  · rw [List.eq_nil_iff_forall_not_mem]
    intro r hr
    obtain ⟨-, l, -, hne, hq⟩ := (mem_find_craftable store [] b r).mp hr
    cases l with
    | nil => exact hne rfl
    | cons a t =>
      cases b
      · have h := (qualifies_subset_iff [] (a :: t)).mp hq a (List.mem_dedup.mpr (by simp))
        unfold specEntrySatisfied at h
        have hpos : 0 < List.count a (a :: t) := List.count_pos_iff.mpr (by simp)
        by_cases hh : startsWithHash a
        · rw [if_pos hh] at h
          simp only [List.countP_nil] at h
          omega
        · rw [if_neg hh] at h
          simp only [List.count_nil] at h
          omega
      · have h := (qualifies_exact_iff [] (a :: t)).mp hq a
        have hpos : 0 < List.count a (a :: t) := List.count_pos_iff.mpr (by simp)
        simp only [List.count_nil] at h
        omega
  · have : store.filter (fun r =>
        nameFilter none r && ingredientsFilter none r && typeFilter (some k) r) = [] := by
      rw [List.filter_eq_nil_iff]
      intro r hr
      have hne := hk r hr
      simp only [nameFilter, ingredientsFilter, typeFilter, Bool.true_and]
      rw [if_neg (by simpa using hk0)]
      simpa using hne
    unfold find_recipes
    rw [this]
    rfl
  · unfold find_recipes_by_id
    rw [List.filter_eq_nil_iff]
    intro r hr
    simpa using hi r hr

/-- Witness for C6: with a concrete one-torch store, an unknown kind and
an unknown (un-namespaced) result id, all three queries come back
empty. -/
theorem C6_witness :
    find_craftable_recipes [stickRec] [] true = []
  ∧ find_recipes [stickRec] none none (some "nope") 20 = []
  ∧ find_recipes_by_id [stickRec] "unobtainium_ingot" = [] :=
  C6_empty_inventory_unknown_filters [stickRec] true "nope" "unobtainium_ingot"
    (by decide) (by decide) (by decide)

/-- Soundness of the name criterion: a passing row with a truthy name
filter matches `result_name LIKE '%name%'`. -/
theorem nameFilter_sound (n : String) (r : RecipeRecord)
    (h : nameFilter (some n) r = true) (hne : n ≠ "") :
    likeContains n r.result_name = true := by
  simp only [nameFilter] at h
  rwa [if_neg (by simpa using hne)] at h

/-- Soundness of the kind criterion: a passing row with a truthy kind
filter has exactly that kind. -/
theorem typeFilter_sound (t : String) (r : RecipeRecord)
    (h : typeFilter (some t) r = true) (hne : t ≠ "") :
    r.recipe_type = t := by
  simp only [typeFilter] at h
  rw [if_neg (by simpa using hne)] at h
  simpa using h

/-- Soundness of the ingredient criteria: a passing row with a truthy
ingredient list has a non-NULL serialized ingredient column whose text is
LIKE-matched by every requested ingredient's pattern. -/
theorem ingredientsFilter_sound (l : List String) (r : RecipeRecord)
    (h : ingredientsFilter (some l) r = true) (hne : l ≠ []) :
    ∃ li, r.ingredients = some li ∧
      ∀ i ∈ l, likeChars (ingredientLikePattern i) (jsonDumpsChars li) = true := by
  cases l with
  | nil => exact absurd rfl hne
  | cons a t =>
    simp only [ingredientsFilter] at h
    cases hri : r.ingredients with
    | none =>
      rw [hri] at h
      simp at h
    | some li =>
      rw [hri] at h
      refine ⟨li, rfl, ?_⟩
      simp only [List.all_eq_true] at h
      exact h

/-- C7 (amended): `findByCriteria` returns only records satisfying all
supplied truthy criteria simultaneously (conjunctive AND): the display
name matches the SQL LIKE pattern `%name%`, every listed ingredient id
`i` LIKE-matches the serialized ingredient column under `%"i"%` (a
substring test against the serialized JSON form — it coincides with a
membership test for ordinary ids but can produce false positives, e.g.
for requested ids carrying LIKE wildcards), and the kind equals the
record's recipe kind; the result list contains at most `limit` records
(the Python signature defaults `limit` to 20). -/
theorem C7_criteria_conjunctive (store : List RecipeRecord) (name : Option String)
    (ings : Option (List String)) (rtype : Option String) (limit : Nat) :
    (∀ r ∈ find_recipes store name ings rtype limit,
        r ∈ store
      ∧ (∀ n, name = some n → n ≠ "" → likeContains n r.result_name = true)
      ∧ (∀ l, ings = some l → l ≠ [] →
           ∃ li, r.ingredients = some li ∧
             ∀ i ∈ l, likeChars (ingredientLikePattern i) (jsonDumpsChars li) = true)
      ∧ (∀ t, rtype = some t → t ≠ "" → r.recipe_type = t))
  ∧ (find_recipes store name ings rtype limit).length ≤ limit := by
  constructor
  · intro r hr
    unfold find_recipes at hr
    have hr' := List.mem_of_mem_take hr
    rw [List.mem_filter] at hr'
    obtain ⟨hs, hp⟩ := hr'
    simp only [Bool.and_eq_true] at hp
    obtain ⟨⟨hn, hi⟩, ht⟩ := hp
    refine ⟨hs, ?_, ?_, ?_⟩
    · intro n hn' hne
      subst hn'
      exact nameFilter_sound n r hn hne
    · intro l hl hlne
      subst hl
      exact ingredientsFilter_sound l r hi hlne
    · intro t ht' htne
      subst ht'
      exact typeFilter_sound t r ht htne
  · unfold find_recipes
    rw [List.length_take]
    exact min_le_left _ _

/-- C7 counterexample: the requested ingredient `"m%k"` carries a LIKE
wildcard, so the row whose only ingredient is `"mk"` is returned although
`"m%k"` appears nowhere in its ingredient multiset — the filter is a
pattern match on the serialized text, not a membership test. -/
theorem C7_counterexample :
    find_recipes [weirdRec] none (some ["m%k"]) none 20 = [weirdRec]
  ∧ weirdRec.ingredients = some ["mk"]
  ∧ "m%k" ∉ (["mk"] : List String) :=
  ⟨by decide, rfl, by decide⟩

/-- Witness for C7: a fully criteria-matched one-row store — the returned
torch row has the requested kind, and the result is within the
(defaulted) limit of 20. -/
theorem C7_witness :
    stickRec.recipe_type = "minecraft:crafting_shaped"
  ∧ (find_recipes [stickRec] (some "Torch") (some ["minecraft:stick"])
        (some "minecraft:crafting_shaped") 20).length ≤ 20 :=
  ⟨(((C7_criteria_conjunctive [stickRec] (some "Torch") (some ["minecraft:stick"])
        (some "minecraft:crafting_shaped") 20).1 stickRec (by decide)).2.2.2)
      "minecraft:crafting_shaped" rfl (by decide),
   (C7_criteria_conjunctive [stickRec] (some "Torch") (some ["minecraft:stick"])
        (some "minecraft:crafting_shaped") 20).2⟩

/-- C8 counterexample: the armor-dye unit is normalized to a record whose
synthesized result id is `minecraft:special_armor_dye`, not the
`special_armor_dye` the claim literally states. -/
theorem C8_counterexample :
    normalizeUnit "armor_dye" armorDyeData = UnitOutcome.record armorDyeRow
  ∧ armorDyeRow.result_id ≠ "special_armor_dye" :=
  ⟨by decide, by decide⟩

/-- C8 (amended): a description whose kind is a dynamic-result kind
(trim application, decorated-pot assembly) and whose `result` field is
absent or non-dict/non-string gets the synthesized result id
`minecraft:special_<source-identifier>` with count 1; a description whose
kind matches the special-crafting prefix with no truthy result otherwise
resolved gets the same synthesized id; and the armor-dye unit is
persisted with an empty ingredient multiset under that id and is
retrievable by name. -/
theorem C8_special_result_synthesis :
    (∀ (stem : String) (d : RecipeData),
        (d.result = none ∨ d.result = some ResultVal.other) →
        recipeTypeOf d ∈ dynamicResultKinds →
        resolveResult stem d = (some ("minecraft:special_" ++ stem), 1))
  ∧ (∀ (stem : String) (d : RecipeData),
        truthy (resolveResult stem d).1 = false →
        strStartsWith "minecraft:crafting_special_" (recipeTypeOf d) = true →
        finalResult stem d = (some ("minecraft:special_" ++ stem), 1))
  ∧ create_database [("armor_dye", RawUnit.parsed armorDyeData)] = .ok ⟨[armorDyeRec], 1, []⟩
  ∧ armorDyeRec.ingredients = some []
  ∧ find_recipes_by_name [armorDyeRec] "Special Armor Dye" = [armorDyeRec] := by
  refine ⟨?_, ?_, rfl, rfl, by decide⟩
  · intro stem d hres hkind
    rcases hres with h | h <;> simp [resolveResult, h, hkind]
  · intro stem d htr hsw
    simp only [finalResult]
    rw [htr, hsw]
    simp

/-- Witness for C8: the trim-kind description and the armor-dye
description both get the namespaced synthesized result id with count 1. -/
theorem C8_witness :
    resolveResult "netherite_trim" trimData = (some "minecraft:special_netherite_trim", 1)
  ∧ finalResult "armor_dye" armorDyeData = (some "minecraft:special_armor_dye", 1) :=
  ⟨C8_special_result_synthesis.1 "netherite_trim" trimData (Or.inl rfl) (by decide),
   C8_special_result_synthesis.2.1 "armor_dye" armorDyeData (by decide) (by decide)⟩
